import Mathlib

/-!
# Verification of the skill4skill messaging / skills / user controllers

A shallow embedding of the controllers of the skill4skill repository
(message controller, skill controller, user controller, and the Gemini
fallback wrapper) over an explicit document-database state, together with
theorems settling the specification claims.

Mongo documents are modelled as Lean structures; each collection is a list
of documents.  Document ids are natural numbers; a fresh id is drawn from
the `nextId` counter of the database state.  A thrown `ApiError(status,
message)` is modelled by `Except.error`; the handler state at the moment of
the throw is the returned database (the code performs its writes with
`await`, so writes done before a throw persist).

The file has two parts: first all definitions, then all theorems.
-/

set_option linter.unusedVariables false

namespace S4S

/-- HTTP application error carrying a status code and a message, as in
`utils/ApiError.js`. -/
structure ApiError where
  statusCode : Nat
  message : String
deriving DecidableEq, Repr

/-- Status code of an error result, `none` on success. -/
def errCode {α : Type} {β : Type} : Except ApiError α × β → Option Nat
  | (Except.error e, _) => some e.statusCode
  | (Except.ok _, _) => none

/-- Status of a `ChatRequest` document (`chatRequest.model.js`). -/
inductive ReqStatus
  | pending
  | accepted
  | rejected
deriving DecidableEq, Repr

/-- The `type` field of a `Skill` document. -/
inductive SkillType
  | OFFER
  | REQUEST
deriving DecidableEq, Repr

/-- A `Conversation` document: participants, ordered message references and
the last-message pointer. -/
structure Conversation where
  id : Nat
  participants : List Nat
  messages : List Nat
  lastMessage : Option Nat := none
deriving DecidableEq, Repr

/-- A `Message` document.  The body is modelled as its list of words (the
granularity at which the leo-profanity dictionary check operates). -/
structure Message where
  id : Nat
  senderId : Nat
  receiverId : Nat
  message : List String
  conversationId : Nat
  read : Bool := false
deriving DecidableEq, Repr

/-- A `ChatRequest` document: the pairwise gate for conversation creation. -/
structure ChatRequest where
  id : Nat
  requester : Nat
  receiver : Nat
  status : ReqStatus
deriving DecidableEq, Repr

/-- A `Report` document; `reportedUser`, `reportedSkill` and
`conversationId` are optional fields (absent fields do not match Mongo
equality queries, which the `Option` model reproduces). -/
structure Report where
  id : Nat
  reporter : Nat
  reportedUser : Option Nat := none
  reportedSkill : Option Nat := none
  conversationId : Option Nat := none
  reason : String
  reportType : String
deriving DecidableEq, Repr

/-- A `Skill` document (the fields consumed by the matching endpoint). -/
structure Skill where
  id : Nat
  user : Nat
  title : String
  category : String
  tags : List String
  type : SkillType
deriving DecidableEq, Repr

/-- The document store shared by the messaging and skill controllers.
`notifications` models the documents written by
the `createNotification` helper of `notification.controller.js` (user id and text). -/
structure DB where
  conversations : List Conversation := []
  messages : List Message := []
  chatRequests : List ChatRequest := []
  reports : List Report := []
  skills : List Skill := []
  notifications : List (Nat × String) := []
  nextId : Nat := 0
deriving DecidableEq, Repr

/-- The empty database. -/
def initDB : DB := {}

/-- Failure switches for the notification side channels.  `notifFails`
makes `createNotification` throw. -/
structure SideOracle where
  notifFails : Bool
deriving DecidableEq, Repr

/-- The oracle under which every side channel succeeds. -/
def noFail : SideOracle := ⟨false⟩

/-- Modelled from the spec: `createNotification`
(`notification.controller.js`, not under `src/`) creates a notification
document for a user; it is a best-effort side channel that may throw, which
its callers guard with try/catch. -/
def createNotification (o : SideOracle) (userId : Nat) (msg : String)
    (db : DB) : Except Unit DB :=
  if o.notifFails then Except.error ()
  else Except.ok { db with notifications := db.notifications ++ [(userId, msg)] }

/-- Modelled from the spec: `sendPushNotification` (`utils/pushNotifier.js`,
not under `src/`) is a best-effort push delivery that catches its own
failures and never throws, per the "best effort semantics throughout"
design; it changes no database state. -/
def sendPushNotification (o : SideOracle) (userId : Nat) : Unit := ()

/-- The leo-profanity `check`: the message contains a dictionary word.  The
loaded dictionary is a parameter (`dict`). -/
def profanityCheck (dict : List String) (msg : List String) : Bool :=
  msg.any (fun w => dict.contains w)

/-- `Conversation.findOne({participants: {$all: [a, b]}})`. -/
def findConversation (db : DB) (a b : Nat) : Option Conversation :=
  db.conversations.find? (fun c => c.participants.contains a && c.participants.contains b)

/-- `ChatRequest.findOne` for an accepted request between the two users in
either direction, as queried by `sendMessage`. -/
def acceptedRequestExists (db : DB) (s r : Nat) : Bool :=
  db.chatRequests.any (fun q =>
    ((q.requester == s && q.receiver == r) || (q.requester == r && q.receiver == s))
      && q.status == ReqStatus.accepted)

/-- `sendMessage` of the message controller: profanity gate, conversation
lookup, lazy conversation creation behind the accepted-chat-request gate,
message persistence, last-message pointer update, then best-effort socket
and push delivery (the socket layer and push notifier are not under `src/`
and are modelled from the spec as non-throwing). -/
def sendMessage (dict : List String) (db : DB) (senderId receiverId : Nat)
    (message : List String) (o : SideOracle) : Except ApiError Message × DB :=
  if profanityCheck dict message then
    (Except.error ⟨400, "Message contains inappropriate language."⟩, db)
  else
    let convState? : Option (Conversation × DB) :=
      match findConversation db senderId receiverId with
      | some conv => some (conv, db)
      | none =>
        if acceptedRequestExists db senderId receiverId then
          let conv : Conversation :=
            { id := db.nextId, participants := [senderId, receiverId], messages := [] }
          some (conv, { db with
                        conversations := db.conversations ++ [conv],
                        nextId := db.nextId + 1 })
        else none
    match convState? with
    | none =>
      (Except.error ⟨403, "You can only send messages after a chat request has been accepted."⟩, db)
    | some (conv, db1) =>
      let newMessage : Message :=
        { id := db1.nextId, senderId := senderId, receiverId := receiverId,
          message := message, conversationId := conv.id }
      let conv2 : Conversation :=
        { conv with
          messages := conv.messages ++ [newMessage.id],
          lastMessage := some newMessage.id }
      let db2 : DB :=
        { db1 with
          conversations := db1.conversations.map (fun c => if c.id = conv.id then conv2 else c),
          messages := db1.messages ++ [newMessage],
          nextId := db1.nextId + 1 }
      -- socket emit (spec-modelled as non-throwing) and best-effort push
      let _push := sendPushNotification o receiverId
      (Except.ok newMessage, db2)

/-- `Skill.findById`. -/
def findSkillById (db : DB) (i : Nat) : Option Skill :=
  db.skills.find? (fun s => s.id == i)

/-- The naive match score of `getMatchingSkills`: +10 for the same
category, +5 per tag shared with the request skill. -/
def matchScore (requestSkill m : Skill) : Nat :=
  (if m.category = requestSkill.category then 10 else 0) +
    (m.tags.filter (fun t => requestSkill.tags.contains t)).length * 5

/-- Descending-score order used by the `getMatchingSkills` comparator
`(a, b) => b.score - a.score`. -/
def scoreGe (a b : Skill × Nat) : Prop := b.2 ≤ a.2

instance : DecidableRel scoreGe := fun a b => Nat.decLe b.2 a.2

instance : IsTotal (Skill × Nat) scoreGe :=
  ⟨fun a b => (Nat.le_total a.2 b.2).symm⟩

instance : IsTrans (Skill × Nat) scoreGe :=
  ⟨fun a b c h1 h2 => le_trans h2 h1⟩

/-- `getMatchingSkills`: candidates are OFFER skills of other users sharing
the category or a tag; each is scored, sorted by descending score (a stable
comparison sort, modelled by insertion sort), and the top 5 are returned. -/
def getMatchingSkills (db : DB) (userId skillId : Nat) :
    Except ApiError (List (Skill × Nat)) :=
  match findSkillById db skillId with
  | none => Except.error ⟨404, "Skill request not found."⟩
  | some requestSkill =>
    if requestSkill.type ≠ SkillType.REQUEST then
      Except.error ⟨404, "Skill request not found."⟩
    else
      let potentialMatches := db.skills.filter (fun s =>
        s.type == SkillType.OFFER && s.user != userId &&
          (s.category == requestSkill.category
            || s.tags.any (fun t => requestSkill.tags.contains t)))
      let scoredMatches :=
        (potentialMatches.map (fun m => (m, matchScore requestSkill m))).insertionSort scoreGe
      Except.ok (scoredMatches.take 5)

/-- The request skill of the C3 witness database. -/
def c3req : Skill :=
  { id := 0, user := 7, title := "learn piano", category := "Music",
    tags := ["piano", "music"], type := SkillType.REQUEST }

/-- A concrete database with one REQUEST and two OFFER skills. -/
def c3db : DB :=
  { initDB with skills :=
    [ c3req,
      { id := 1, user := 8, title := "piano lessons", category := "Music",
        tags := ["piano"], type := SkillType.OFFER },
      { id := 2, user := 9, title := "guitar", category := "Music",
        tags := ["guitar"], type := SkillType.OFFER } ] }

/-- The try/catch block shared by the report endpoints: socket emit
(non-throwing), `createNotification` (may throw), then best-effort push; a
failure anywhere in the block is caught and logged, keeping the effects
performed before it. -/
def tryNotify (o : SideOracle) (userId : Nat) (msg : String) (db : DB) : DB :=
  match createNotification o userId msg db with
  | Except.ok db1 =>
    let _push := sendPushNotification o userId
    db1
  | Except.error _ => db

/-- `reportUser` of the message controller: requires a reason, resolves the
conversation and the other participant, rejects duplicate reports, creates
the report, then best-effort notifications inside try/catch.  The
authentication (401) guard is outside the model: `reporterId` is the
authenticated caller. -/
def reportUser (db : DB) (reporterId conversationId : Nat) (reason : String)
    (o : SideOracle) : Except ApiError Unit × DB :=
  if reason.trim = "" then
    (Except.error ⟨400, "A reason is required to report a user."⟩, db)
  else
    match db.conversations.find? (fun c => c.id == conversationId) with
    | none => (Except.error ⟨404, "Conversation not found."⟩, db)
    | some conversation =>
      match conversation.participants.find? (fun p => p != reporterId) with
      | none =>
        (Except.error ⟨400, "Could not identify the user to report in this conversation."⟩, db)
      | some reportedUserId =>
        match db.reports.find? (fun r => r.reporter == reporterId
            && r.reportedUser == some reportedUserId
            && r.conversationId == some conversationId) with
        | some _ =>
          (Except.error ⟨400, "You have already reported this user for this conversation."⟩, db)
        | none =>
          let report : Report :=
            { id := db.nextId, reporter := reporterId,
              reportedUser := some reportedUserId,
              conversationId := some conversationId,
              reason := reason, reportType := "user" }
          let db1 := { db with reports := db.reports ++ [report], nextId := db.nextId + 1 }
          let db2 := tryNotify o reportedUserId
            "You have been reported for inappropriate conduct. Our moderation team will review the case. Further violations may lead to account suspension." db1
          (Except.ok (), db2)

/-- `reportSkill` of the skill controller.  The ObjectId validity guard is
outside the model (ids are naturals). -/
def reportSkill (db : DB) (reporterId skillId : Nat) (reason : String)
    (o : SideOracle) : Except ApiError Unit × DB :=
  if reason.trim = "" then
    (Except.error ⟨400, "A reason is required to report a skill."⟩, db)
  else
    match findSkillById db skillId with
    | none => (Except.error ⟨404, "Skill not found."⟩, db)
    | some skill =>
      if reporterId = skill.user then
        (Except.error ⟨400, "You cannot report your own skill."⟩, db)
      else
        match db.reports.find? (fun r => r.reporter == reporterId
            && r.reportedSkill == some skillId) with
        | some _ => (Except.error ⟨400, "You have already reported this skill."⟩, db)
        | none =>
          let report : Report :=
            { id := db.nextId, reporter := reporterId,
              reportedSkill := some skillId,
              reportedUser := some skill.user,
              reason := reason, reportType := "skill" }
          let db1 := { db with reports := db.reports ++ [report], nextId := db.nextId + 1 }
          let db2 := tryNotify o skill.user
            ("Your skill \"" ++ skill.title ++ "\" has been reported for review.") db1
          (Except.ok (), db2)

/-- `deleteMessage` of the message controller: only the sender may delete;
the message id is pulled from the containing conversation and the message
document deleted.  When no conversation contains the message (or the
conversation has no other participant), the subsequent read of the other
participant raises a TypeError surfaced as a generic 500 — after the
deletion writes already happened. -/
def deleteMessage (db : DB) (userId messageId : Nat) : Except ApiError Unit × DB :=
  match db.messages.find? (fun msg => msg.id == messageId) with
  | none => (Except.error ⟨404, "Message not found"⟩, db)
  | some message =>
    if message.senderId ≠ userId then
      (Except.error ⟨403, "You can only delete your own messages."⟩, db)
    else
      let conversation? := db.conversations.find? (fun c => c.messages.contains messageId)
      let db1 :=
        match conversation? with
        | some conversation =>
          { db with conversations := db.conversations.map (fun c : Conversation =>
              if c.id = conversation.id then
                { c with messages := c.messages.filter (fun m => m ≠ messageId) }
              else c) }
        | none => db
      let db2 := { db1 with messages := db1.messages.filter (fun msg => msg.id ≠ messageId) }
      let resp : Except ApiError Unit :=
        match conversation? with
        | none => Except.error ⟨500, "TypeError"⟩
        | some conversation =>
          match conversation.participants.find? (fun p => p != userId) with
          | none => Except.error ⟨500, "TypeError"⟩
          | some otherParticipantId => Except.ok ()
      (resp, db2)

/-- The message of the C8 witness database. -/
def c8msg : Message :=
  { id := 5, senderId := 1, receiverId := 2, message := ["hello"], conversationId := 0 }

/-- A concrete database with one conversation holding one message. -/
def c8db : DB :=
  { initDB with
    conversations := [{ id := 0, participants := [1, 2], messages := [5], lastMessage := some 5 }],
    messages := [c8msg],
    nextId := 6 }

/-- A concrete database holding an existing user report and an existing
skill report by reporter 1. -/
def c9db : DB :=
  { initDB with
    conversations := [{ id := 0, participants := [1, 2], messages := [] }],
    skills := [{ id := 3, user := 2, title := "t", category := "Tech",
                 tags := [], type := SkillType.OFFER }],
    reports :=
      [ { id := 4, reporter := 1, reportedUser := some 2, conversationId := some 0,
          reason := "spam", reportType := "user" },
        { id := 5, reporter := 1, reportedSkill := some 3, reportedUser := some 2,
          reason := "spam", reportType := "skill" } ],
    nextId := 6 }

/-- The key loop of `callGeminiWithFallback`: try each key in order,
returning on the first success; a failure on the last key throws the single
500.  The second component records the keys attempted, in order, making the
call sequence observable.  The `[]` case is unreachable from
`callGeminiWithFallback` (the guard rejects an empty key list first). -/
def tryKeys (attempt : String → Except Unit String) :
    List String → Except ApiError String × List String
  | [] =>
    (Except.error
      ⟨500, "The AI service is currently unavailable after trying all available keys."⟩, [])
  | [k] =>
    match attempt k with
    | Except.ok t => (Except.ok t, [k])
    | Except.error _ =>
      (Except.error
        ⟨500, "The AI service is currently unavailable after trying all available keys."⟩, [k])
  | k :: k2 :: rest =>
    match attempt k with
    | Except.ok t => (Except.ok t, [k])
    | Except.error _ =>
      let r := tryKeys attempt (k2 :: rest)
      (r.1, k :: r.2)

/-- `callGeminiWithFallback`.  `apiKeys?` is the already split-and-trimmed
`process.env.GOOGLE_API_KEYS` (`none` when the variable is unset); the
external request is abstracted by `attempt`, keyed by the API key used.
The guard `!apiKeys || apiKeys.length === 0 || !apiKeys[0]` rejects a
missing or empty key list and an empty first key. -/
def callGeminiWithFallback (apiKeys? : Option (List String))
    (attempt : String → Except Unit String) : Except ApiError String × List String :=
  match apiKeys? with
  | none => (Except.error ⟨500, "No Google API keys are configured on the server."⟩, [])
  | some [] => (Except.error ⟨500, "No Google API keys are configured on the server."⟩, [])
  | some (k0 :: rest) =>
    if k0 = "" then
      (Except.error ⟨500, "No Google API keys are configured on the server."⟩, [])
    else tryKeys attempt (k0 :: rest)

/-- The attempt function of the C7 counterexample: the request succeeds on
key `"b"` and fails on any other key. -/
def c7attempt : String → Except Unit String :=
  fun k => if k = "b" then Except.ok "hi" else Except.error ()

/-- The attempt function of the C7 witness: the request errors on key "a"
and succeeds on any other key. -/
def c7attempt2 : String → Except Unit String :=
  fun k => if k = "a" then Except.error () else Except.ok "resp"

/-- `clearConversation` of the message controller: a participant empties a
conversation; its messages are bulk-deleted and the message list reset. -/
def clearConversation (db : DB) (userId conversationId : Nat) :
    Except ApiError Unit × DB :=
  match db.conversations.find? (fun c => c.id == conversationId) with
  | none => (Except.error ⟨404, "Conversation not found"⟩, db)
  | some conversation =>
    if conversation.participants.contains userId then
      let msgs1 := db.messages.filter (fun m => !(conversation.messages.contains m.id))
      let db1 := { db with messages := msgs1 }
      let conv2 := { conversation with messages := [] }
      (Except.ok (),
        { db1 with conversations :=
            db1.conversations.map (fun c => if c.id = conversation.id then conv2 else c) })
    else (Except.error ⟨403, "You are not part of this conversation."⟩, db)

/-- `deleteConversation` of the message controller: a participant deletes
the conversation, its messages, and the chat request between the pair.
(The source queries the request by `sender`/`receiver` field names; the
request model has `requester`/`receiver` fields, modelled here as the
intended requester/receiver match.) -/
def deleteConversation (db : DB) (userId conversationId : Nat) :
    Except ApiError Unit × DB :=
  match db.conversations.find? (fun c => c.id == conversationId) with
  | none => (Except.error ⟨404, "Conversation not found."⟩, db)
  | some conversation =>
    if conversation.participants.contains userId then
      let reqs : List ChatRequest :=
        match conversation.participants.find? (fun p => p != userId) with
        | some otherId =>
          (match db.chatRequests.find? (fun q : ChatRequest =>
              (q.requester == userId && q.receiver == otherId)
                || (q.requester == otherId && q.receiver == userId)) with
          | some q0 => db.chatRequests.filter (fun q => q.id ≠ q0.id)
          | none => db.chatRequests)
        | none => db.chatRequests
      (Except.ok (),
        { db with
          chatRequests := reqs,
          messages := db.messages.filter (fun m => m.conversationId ≠ conversationId),
          conversations := db.conversations.filter (fun c => c.id ≠ conversationId) })
    else (Except.error ⟨403, "You are not authorized to delete this conversation."⟩, db)

/-- `markAllAsRead`: flags every unread message addressed to the user. -/
def markAllAsRead (db : DB) (userId : Nat) : Except ApiError Unit × DB :=
  (Except.ok (), { db with messages := db.messages.map (fun m =>
    if m.receiverId = userId ∧ m.read = false then { m with read := true } else m) })

/-- `markMessagesAsRead`: flags the unread messages from one counterpart
when a conversation between the pair exists. -/
def markMessagesAsRead (db : DB) (userId otherId : Nat) : Except ApiError Unit × DB :=
  if db.conversations.any (fun c =>
      c.participants.contains userId && c.participants.contains otherId) then
    (Except.ok (), { db with messages := db.messages.map (fun m =>
      if m.senderId = otherId ∧ m.receiverId = userId ∧ m.read = false then
        { m with read := true }
      else m) })
  else (Except.error ⟨404, "Conversation not found"⟩, db)

/-- Modelled from the spec: the chat-request controller (not under `src/`)
creates a pending pairwise request. -/
def createChatRequest (db : DB) (requester receiver : Nat) : DB :=
  { db with
    chatRequests := db.chatRequests ++
      [{ id := db.nextId, requester := requester, receiver := receiver,
         status := ReqStatus.pending }],
    nextId := db.nextId + 1 }

/-- Modelled from the spec: accepting a chat request transitions it to the
accepted state. -/
def acceptChatRequest (db : DB) (requestId : Nat) : DB :=
  { db with chatRequests := db.chatRequests.map (fun q =>
      if q.id = requestId then { q with status := ReqStatus.accepted } else q) }

/-- Modelled from the spec: rejecting a chat request transitions it to the
rejected state. -/
def rejectChatRequest (db : DB) (requestId : Nat) : DB :=
  { db with chatRequests := db.chatRequests.map (fun q =>
      if q.id = requestId then { q with status := ReqStatus.rejected } else q) }

/-- Modelled from the spec: deleting the chat request between a pair of
users removes matching request documents and touches nothing else. -/
def deleteChatRequest (db : DB) (userId otherId : Nat) : DB :=
  { db with chatRequests := db.chatRequests.filter (fun q =>
      !((q.requester == userId && q.receiver == otherId)
        || (q.requester == otherId && q.receiver == userId))) }

/-- The operations of the messaging subsystem (the message controller, the
report endpoints, and the spec-modelled chat-request lifecycle): the
universe over which reachability for the conversation invariant is
stated. -/
inductive Op
  | sendMessageOp (senderId receiverId : Nat) (message : List String) (o : SideOracle)
  | deleteMessageOp (userId messageId : Nat)
  | clearConversationOp (userId conversationId : Nat)
  | deleteConversationOp (userId conversationId : Nat)
  | reportUserOp (reporterId conversationId : Nat) (reason : String) (o : SideOracle)
  | reportSkillOp (reporterId skillId : Nat) (reason : String) (o : SideOracle)
  | markAllAsReadOp (userId : Nat)
  | markMessagesAsReadOp (userId otherId : Nat)
  | createChatRequestOp (requester receiver : Nat)
  | acceptChatRequestOp (requestId : Nat)
  | rejectChatRequestOp (requestId : Nat)
  | deleteChatRequestOp (userId otherId : Nat)
deriving DecidableEq, Repr

/-- The database state after one operation (responses discarded; a thrown
error leaves the state the handler had at the throw). -/
def execOp (dict : List String) (db : DB) : Op → DB
  | Op.sendMessageOp s r m o => (sendMessage dict db s r m o).2
  | Op.deleteMessageOp u mid => (deleteMessage db u mid).2
  | Op.clearConversationOp u cid => (clearConversation db u cid).2
  | Op.deleteConversationOp u cid => (deleteConversation db u cid).2
  | Op.reportUserOp u cid reason o => (reportUser db u cid reason o).2
  | Op.reportSkillOp u sid reason o => (reportSkill db u sid reason o).2
  | Op.markAllAsReadOp u => (markAllAsRead db u).2
  | Op.markMessagesAsReadOp u v => (markMessagesAsRead db u v).2
  | Op.createChatRequestOp a b => createChatRequest db a b
  | Op.acceptChatRequestOp i => acceptChatRequest db i
  | Op.rejectChatRequestOp i => rejectChatRequest db i
  | Op.deleteChatRequestOp a b => deleteChatRequest db a b

/-- Run a list of operations from a state. -/
def runOps (dict : List String) (db : DB) : List Op → DB
  | [] => db
  | op :: ops => runOps dict (execOp dict db op) ops

/-- A `User` document (the fields consumed by the OTP flows and
registration).  `password` stands for the stored credential; the bcrypt
comparison `isPasswordCorrect` is modelled as equality with it. -/
structure User where
  id : Nat
  firstName : String
  lastName : String
  username : String
  email : Option String
  password : String
  isVerified : Bool := false
  verificationOtp : Option String := none
  verificationOtpExpiry : Option Nat := none
  passwordResetOtp : Option String := none
  passwordResetOtpExpiry : Option Nat := none
  emailChangeOtp : Option String := none
  emailChangeOtpExpiry : Option Nat := none
  newEmail : Option String := none
deriving DecidableEq, Repr

/-- The user collection. -/
structure UserDB where
  users : List User := []
  nextId : Nat := 0
deriving DecidableEq, Repr

/-- The JS check `field.trim() === ""`: the string is all whitespace. -/
def isBlank (s : String) : Bool :=
  s.data.all Char.isWhitespace

/-- `username.toLowerCase()`. -/
def toLowerStr (s : String) : String :=
  String.mk (s.data.map Char.toLower)

/-- The password policy of `registerUser` / `resetPassword`: length and the
four character-class regex tests, in source order. -/
def passwordPolicyError (password : String) : Option ApiError :=
  if password.length < 8 then
    some ⟨400, "Password must be at least 8 characters long."⟩
  else if !(password.data.any Char.isLower) then
    some ⟨400, "Password must contain at least one lowercase letter."⟩
  else if !(password.data.any Char.isUpper) then
    some ⟨400, "Password must contain at least one uppercase letter."⟩
  else if !(password.data.any Char.isDigit) then
    some ⟨400, "Password must contain at least one number."⟩
  else if !(password.data.any (fun c =>
      (['@', '$', '!', '%', '*', '?', '&'] : List Char).contains c)) then
    some ⟨400, "Password must contain at least one special character (@$!%*?&)."⟩
  else none

/-- `registerUser`: field and password validation, uniqueness check,
creation of the unverified user carrying the OTP, then the verification
email; if sending throws, the just-created user is deleted again and a 500
is thrown.  `otp` is the random six-digit code, `now` the clock, and
`emailSendFails` tells whether the email provider throws. -/
def registerUser (db : UserDB) (firstName lastName username email password : String)
    (otp : String) (now : Nat) (emailSendFails : Bool) : Except ApiError Unit × UserDB :=
  if [firstName, lastName, username, email, password].any (fun f => isBlank f) then
    (Except.error ⟨400, "All fields are required"⟩, db)
  else
    match passwordPolicyError password with
    | some e => (Except.error e, db)
    | none =>
      if db.users.any (fun u => u.username == username || u.email == some email) then
        (Except.error ⟨409, "User with this email or username already exists"⟩, db)
      else
        let user : User :=
          { id := db.nextId, firstName := firstName, lastName := lastName,
            username := toLowerStr username, email := some email, password := password,
            verificationOtp := some otp,
            verificationOtpExpiry := some (now + 10 * 60 * 1000) }
        let db1 : UserDB := { users := db.users ++ [user], nextId := db.nextId + 1 }
        if emailSendFails then
          (Except.error ⟨500, "Could not send verification email. Please try again later."⟩,
            { db1 with users := db1.users.filter (fun u2 => u2.id ≠ user.id) })
        else (Except.ok (), db1)

/-- `verifyOtp`: matches email, stored registration OTP, and an expiry
strictly in the future; on success marks the user verified and clears the
OTP and expiry. -/
def verifyOtp (db : UserDB) (email otp : String) (now : Nat) :
    Except ApiError Unit × UserDB :=
  if email = "" ∨ otp = "" then
    (Except.error ⟨400, "Email and OTP are required."⟩, db)
  else
    match db.users.find? (fun u => u.email == some email
        && u.verificationOtp == some otp
        && (match u.verificationOtpExpiry with
            | some e => decide (now < e)
            | none => false)) with
    | none => (Except.error ⟨400, "Invalid OTP or OTP has expired."⟩, db)
    | some user =>
      let user2 := { user with isVerified := true, verificationOtp := none, verificationOtpExpiry := none }
      (Except.ok (),
        { db with users := db.users.map (fun u => if u.id = user.id then user2 else u) })

/-- `resetPassword`: validates the new password, matches email, stored
reset OTP and future expiry, rejects reuse of the old password, then
stores the new password and clears the OTP and expiry. -/
def resetPassword (db : UserDB) (email otp newPassword : String) (now : Nat) :
    Except ApiError Unit × UserDB :=
  if email = "" ∨ otp = "" ∨ newPassword = "" then
    (Except.error ⟨400, "Email, OTP, and new password are required."⟩, db)
  else
    match passwordPolicyError newPassword with
    | some e => (Except.error e, db)
    | none =>
      match db.users.find? (fun u => u.email == some email
          && u.passwordResetOtp == some otp
          && (match u.passwordResetOtpExpiry with
              | some e => decide (now < e)
              | none => false)) with
      | none => (Except.error ⟨400, "Invalid OTP or OTP has expired."⟩, db)
      | some user =>
        if user.password = newPassword then
          (Except.error ⟨400, "Your new password cannot be the same as your old password."⟩, db)
        else
          let user2 := { user with password := newPassword, passwordResetOtp := none, passwordResetOtpExpiry := none }
          (Except.ok (),
            { db with users := db.users.map (fun u => if u.id = user.id then user2 else u) })

/-- `verifyEmailChange`: matches the id of the caller, stored email-change OTP
and future expiry; on success installs the pending address and clears the
pending address, OTP and expiry. -/
def verifyEmailChange (db : UserDB) (userId : Nat) (otp : String) (now : Nat) :
    Except ApiError Unit × UserDB :=
  if otp = "" then
    (Except.error ⟨400, "OTP is required."⟩, db)
  else
    match db.users.find? (fun u => u.id == userId
        && u.emailChangeOtp == some otp
        && (match u.emailChangeOtpExpiry with
            | some e => decide (now < e)
            | none => false)) with
    | none => (Except.error ⟨400, "Invalid or expired OTP."⟩, db)
    | some user =>
      let user2 := { user with email := user.newEmail, isVerified := true, newEmail := none, emailChangeOtp := none, emailChangeOtpExpiry := none }
      (Except.ok (),
        { db with users := db.users.map (fun u => if u.id = user.id then user2 else u) })

/-- A concrete user carrying live OTPs for all three flows. -/
def c5user : User :=
  { id := 0, firstName := "A", lastName := "B", username := "ab",
    email := some "a@b.c", password := "Passw0rd!",
    verificationOtp := some "111111", verificationOtpExpiry := some 100,
    passwordResetOtp := some "222222", passwordResetOtpExpiry := some 100,
    emailChangeOtp := some "333333", emailChangeOtpExpiry := some 100,
    newEmail := some "n@b.c" }

/-- A concrete user store holding `c5user`. -/
def c5db : UserDB := { users := [c5user], nextId := 1 }

/-- An empty user store for the registration witness. -/
def c10db : UserDB := {}

end S4S

namespace S4S

/-! ## Theorems -/

/-- The notification try/catch block only ever touches the notification
collection. -/
theorem tryNotify_eq (o : SideOracle) (u : Nat) (m : String) (db : DB) :
    tryNotify o u m db =
      { db with notifications :=
          if o.notifFails then db.notifications else db.notifications ++ [(u, m)] } := by
  cases o with
  | mk nf => cases nf <;> simp [tryNotify, createNotification, sendPushNotification]

/-- Claim C4: a `sendMessage` call whose message body contains a word of
the loaded profanity dictionary returns a 400 error, persists no `Message`
document, and neither creates nor modifies any `Conversation` document (the
database is returned unchanged). -/
theorem sendMessage_profane_rejected (dict : List String) (db : DB)
    (senderId receiverId : Nat) (m : List String) (o : SideOracle)
    (h : ∃ w ∈ m, w ∈ dict) :
    sendMessage dict db senderId receiverId m o =
      (Except.error ⟨400, "Message contains inappropriate language."⟩, db) := by
  have hp : profanityCheck dict m = true := by
    rcases h with ⟨w, hw, hd⟩
    simp only [profanityCheck, List.any_eq_true]
    exact ⟨w, hw, by simpa using hd⟩
  simp [sendMessage, hp]

/-- Witness for C4 at a concrete profane message. -/
theorem sendMessage_profane_rejected_witness :
    sendMessage ["bad"] initDB 1 2 ["hello", "bad"] noFail =
      (Except.error ⟨400, "Message contains inappropriate language."⟩, initDB) :=
  sendMessage_profane_rejected ["bad"] initDB 1 2 ["hello", "bad"] noFail
    ⟨"bad", by decide, by decide⟩

/-- Claim C1 fails as stated: a `sendMessage` call with no conversation and
no accepted chat request between the two users does not always fail with a
403 — when the message is profane the profanity gate fires first and the
call fails with 400 instead. -/
theorem sendMessage_no_gate_not_always_403 :
    findConversation initDB 1 2 = none ∧
    acceptedRequestExists initDB 1 2 = false ∧
    errCode (sendMessage ["bad"] initDB 1 2 ["bad"] noFail) = some 400 ∧
    errCode (sendMessage ["bad"] initDB 1 2 ["bad"] noFail) ≠ some 403 := by
  refine ⟨rfl, rfl, by decide, by decide⟩

/-- Claim C1 (amended): a `sendMessage` call whose message passes the
profanity check, in which no conversation containing both users exists and
no accepted chat request between them (in either direction) exists, fails
with a 403 error and creates no `Message` and no `Conversation` document
(the database is returned unchanged). -/
theorem sendMessage_requires_gate (dict : List String) (db : DB)
    (senderId receiverId : Nat) (m : List String) (o : SideOracle)
    (hprof : profanityCheck dict m = false)
    (hconv : findConversation db senderId receiverId = none)
    (hreq : acceptedRequestExists db senderId receiverId = false) :
    sendMessage dict db senderId receiverId m o =
      (Except.error
        ⟨403, "You can only send messages after a chat request has been accepted."⟩, db) := by
  simp [sendMessage, hprof, hconv, hreq]

/-- Witness for the amended C1 at a concrete call. -/
theorem sendMessage_requires_gate_witness :
    sendMessage [] initDB 1 2 ["hi"] noFail =
      (Except.error
        ⟨403, "You can only send messages after a chat request has been accepted."⟩, initDB) :=
  sendMessage_requires_gate [] initDB 1 2 ["hi"] noFail (by decide) (by decide) (by decide)

/-- Claim C3: on an existing REQUEST skill, `getMatchingSkills` returns at
most 5 entries, every entry is an OFFER skill not owned by the caller, each
score of each entry is 10 for a category match plus 5 per shared tag, and the
list is sorted in descending score order. -/
theorem getMatchingSkills_spec (db : DB) (userId skillId : Nat) (req : Skill)
    (hfind : findSkillById db skillId = some req)
    (htype : req.type = SkillType.REQUEST) :
    ∃ l, getMatchingSkills db userId skillId = Except.ok l ∧
      l.length ≤ 5 ∧
      (∀ p ∈ l, p.1.type = SkillType.OFFER ∧ p.1.user ≠ userId ∧
        p.2 = (if p.1.category = req.category then 10 else 0) +
          5 * (p.1.tags.filter (fun t => req.tags.contains t)).length) ∧
      List.Pairwise scoreGe l := by
  refine ⟨(((db.skills.filter (fun s =>
      s.type == SkillType.OFFER && s.user != userId &&
        (s.category == req.category
          || s.tags.any (fun t => req.tags.contains t)))).map
            (fun m => (m, matchScore req m))).insertionSort scoreGe).take 5,
    ?_, ?_, ?_, ?_⟩
  · rw [getMatchingSkills, hfind]
    simp [htype]
  · exact List.length_take_le 5 _
  · intro p hp
    have hp1 := List.take_subset 5 _ hp
    have hp2 := (List.perm_insertionSort scoreGe _).mem_iff.mp hp1
    rcases List.mem_map.mp hp2 with ⟨m, hm, rfl⟩
    have hm2 := List.mem_filter.mp hm
    have hm3 := hm2.2
    simp only [Bool.and_eq_true, Bool.or_eq_true, beq_iff_eq, bne_iff_ne] at hm3
    refine ⟨hm3.1.1, hm3.1.2, ?_⟩
    simp [matchScore, Nat.mul_comm]
  · exact (List.sorted_insertionSort scoreGe _).sublist (List.take_sublist 5 _)

/-- Claim C8: a `deleteMessage` call by the sender of an existing message
leaves a database in which the message id is no longer an element of any
message list of its conversation and the message document itself is deleted.
The hypothesis says that at most one conversation (up to id) contains the
message, the well-formedness the code relies on. -/
theorem deleteMessage_removes (db : DB) (userId messageId : Nat) (msg : Message)
    (hfind : db.messages.find? (fun m => m.id == messageId) = some msg)
    (hsender : msg.senderId = userId)
    (huniq : ∀ c1 ∈ db.conversations, ∀ c2 ∈ db.conversations,
      messageId ∈ c1.messages → messageId ∈ c2.messages → c1.id = c2.id) :
    (∀ m ∈ (deleteMessage db userId messageId).2.messages, m.id ≠ messageId) ∧
    (∀ c ∈ (deleteMessage db userId messageId).2.conversations,
      messageId ∉ c.messages) := by
  have hne : ¬(msg.senderId ≠ userId) := by simp [hsender]
  simp only [deleteMessage, hfind, if_neg hne]
  cases hconv : db.conversations.find? (fun c => c.messages.contains messageId) with
  | none =>
    constructor
    · intro m hm
      simp [List.mem_filter] at hm
      exact hm.2
    · intro c hc hmem
      have h2 := List.find?_eq_none.mp hconv c hc
      simp at h2
      exact h2 hmem
  | some conversation =>
    have hcmem : conversation ∈ db.conversations := List.mem_of_find?_eq_some hconv
    have hcmsg : messageId ∈ conversation.messages := by
      have h3 := List.find?_some hconv
      simpa using h3
    constructor
    · intro m hm
      simp [List.mem_filter] at hm
      exact hm.2
    · intro c hc
      simp only [List.mem_map] at hc
      rcases hc with ⟨c0, hc0, hfc⟩
      subst hfc
      by_cases hid : c0.id = conversation.id
      · simp only [hid, if_pos rfl]
        intro hmem
        simp [List.mem_filter] at hmem
      · simp only [if_neg hid]
        intro hmem
        exact hid (huniq c0 hc0 conversation hcmem hmem hcmsg)

/-- Witness for C8: deleting the only message of a conversation. -/
theorem deleteMessage_removes_witness :
    (∀ m ∈ (deleteMessage c8db 1 5).2.messages, m.id ≠ 5) ∧
    (∀ c ∈ (deleteMessage c8db 1 5).2.conversations, (5 : Nat) ∉ c.messages) :=
  deleteMessage_removes c8db 1 5 c8msg (by decide) (by decide) (by decide)

/-- Claim C9: a `reportUser` call for which a report by the same reporter
against the same (derived) reported user for the same conversation already
exists fails with a 400 error and leaves the database unchanged, and
likewise a `reportSkill` call for which a report by the same reporter
against the same skill already exists. -/
theorem duplicate_reports_rejected :
    (∀ (db : DB) (reporterId conversationId : Nat) (reason : String) (o : SideOracle)
        (conversation : Conversation) (reportedUserId : Nat),
      db.conversations.find? (fun c => c.id == conversationId) = some conversation →
      conversation.participants.find? (fun p => p != reporterId) = some reportedUserId →
      (∃ r ∈ db.reports, r.reporter = reporterId ∧ r.reportedUser = some reportedUserId ∧
        r.conversationId = some conversationId) →
      errCode (reportUser db reporterId conversationId reason o) = some 400 ∧
        (reportUser db reporterId conversationId reason o).2 = db)
    ∧ (∀ (db : DB) (reporterId skillId : Nat) (reason : String) (o : SideOracle)
        (skill : Skill),
      findSkillById db skillId = some skill →
      (∃ r ∈ db.reports, r.reporter = reporterId ∧ r.reportedSkill = some skillId) →
      errCode (reportSkill db reporterId skillId reason o) = some 400 ∧
        (reportSkill db reporterId skillId reason o).2 = db) := by
  constructor
  · intro db reporterId conversationId reason o conversation reportedUserId hconv hpart hdup
    by_cases hreason : reason.trim = ""
    · simp only [reportUser, if_pos hreason]
      simp [errCode]
    · obtain ⟨r0, hr0, h1, h2, h3⟩ := hdup
      have hfind : (db.reports.find? (fun r => r.reporter == reporterId
          && r.reportedUser == some reportedUserId
          && r.conversationId == some conversationId)).isSome := by
        rw [List.find?_isSome]
        exact ⟨r0, hr0, by simp [h1, h2, h3]⟩
      rcases Option.isSome_iff_exists.mp hfind with ⟨r1, hr1⟩
      simp only [reportUser, if_neg hreason, hconv, hpart, hr1]
      simp [errCode]
  · intro db reporterId skillId reason o skill hskill hdup
    by_cases hreason : reason.trim = ""
    · simp only [reportSkill, if_pos hreason]
      simp [errCode]
    · by_cases howner : reporterId = skill.user
      · simp only [reportSkill, if_neg hreason, hskill, if_pos howner]
        simp [errCode]
      · obtain ⟨r0, hr0, h1, h2⟩ := hdup
        have hfind : (db.reports.find? (fun r => r.reporter == reporterId
            && r.reportedSkill == some skillId)).isSome := by
          rw [List.find?_isSome]
          exact ⟨r0, hr0, by simp [h1, h2]⟩
        rcases Option.isSome_iff_exists.mp hfind with ⟨r1, hr1⟩
        simp only [reportSkill, if_neg hreason, hskill, if_neg howner, hr1]
        simp [errCode]

/-- Witness for C9: a duplicate user report and a duplicate skill report on
a concrete database. -/
theorem duplicate_reports_rejected_witness :
    (errCode (reportUser c9db 1 0 "again" noFail) = some 400 ∧
      (reportUser c9db 1 0 "again" noFail).2 = c9db) ∧
    (errCode (reportSkill c9db 1 3 "again" noFail) = some 400 ∧
      (reportSkill c9db 1 3 "again" noFail).2 = c9db) :=
  ⟨duplicate_reports_rejected.1 c9db 1 0 "again" noFail
      { id := 0, participants := [1, 2], messages := [] } 2
      (by decide) (by decide) (by decide),
    duplicate_reports_rejected.2 c9db 1 3 "again" noFail
      { id := 3, user := 2, title := "t", category := "Tech",
        tags := [], type := SkillType.OFFER }
      (by decide) (by decide)⟩

/-- Claim C6: a failure of a notification side channel (socket emit, push
notification, or report-notification creation) never changes an
response of an operation or its primary state: the result of `sendMessage` and
the response, reports, conversations, messages, chat requests, skills and
id counter after `reportUser` / `reportSkill` are identical whether or not
the side channel fails. -/
theorem side_failure_invariant :
    (∀ (dict : List String) (db : DB) (s r : Nat) (m : List String) (o : SideOracle),
      sendMessage dict db s r m o = sendMessage dict db s r m noFail)
    ∧ (∀ (db : DB) (reporterId conversationId : Nat) (reason : String) (o : SideOracle),
      (reportUser db reporterId conversationId reason o).1
          = (reportUser db reporterId conversationId reason noFail).1
        ∧ (reportUser db reporterId conversationId reason o).2.reports
          = (reportUser db reporterId conversationId reason noFail).2.reports
        ∧ (reportUser db reporterId conversationId reason o).2.conversations
          = (reportUser db reporterId conversationId reason noFail).2.conversations
        ∧ (reportUser db reporterId conversationId reason o).2.messages
          = (reportUser db reporterId conversationId reason noFail).2.messages
        ∧ (reportUser db reporterId conversationId reason o).2.nextId
          = (reportUser db reporterId conversationId reason noFail).2.nextId)
    ∧ (∀ (db : DB) (reporterId skillId : Nat) (reason : String) (o : SideOracle),
      (reportSkill db reporterId skillId reason o).1
          = (reportSkill db reporterId skillId reason noFail).1
        ∧ (reportSkill db reporterId skillId reason o).2.reports
          = (reportSkill db reporterId skillId reason noFail).2.reports
        ∧ (reportSkill db reporterId skillId reason o).2.skills
          = (reportSkill db reporterId skillId reason noFail).2.skills
        ∧ (reportSkill db reporterId skillId reason o).2.nextId
          = (reportSkill db reporterId skillId reason noFail).2.nextId) := by
  refine ⟨fun dict db s r m o => rfl, ?_, ?_⟩
  · intro db reporterId conversationId reason o
    unfold reportUser
    by_cases hreason : reason.trim = ""
    · simp [hreason]
    · simp only [if_neg hreason]
      split
      · exact ⟨rfl, rfl, rfl, rfl, rfl⟩
      · split
        · exact ⟨rfl, rfl, rfl, rfl, rfl⟩
        · split
          · exact ⟨rfl, rfl, rfl, rfl, rfl⟩
          · refine ⟨rfl, ?_, ?_, ?_, ?_⟩ <;> simp [tryNotify_eq]
  · intro db reporterId skillId reason o
    unfold reportSkill
    by_cases hreason : reason.trim = ""
    · simp [hreason]
    · simp only [if_neg hreason]
      split
      · exact ⟨rfl, rfl, rfl, rfl⟩
      · split
        · exact ⟨rfl, rfl, rfl, rfl⟩
        · split
          · exact ⟨rfl, rfl, rfl, rfl⟩
          · refine ⟨rfl, ?_, ?_, ?_⟩ <;> simp [tryNotify_eq]

/-- Keys before the first succeeding key are all tried and fail; the first
succeeding key ends the loop with its response text. -/
theorem tryKeys_first_success (attempt : String → Except Unit String)
    (pre : List String) (k : String) (suf : List String) (t : String)
    (hpre : ∀ x ∈ pre, attempt x = Except.error ())
    (hk : attempt k = Except.ok t) :
    tryKeys attempt (pre ++ k :: suf) = (Except.ok t, pre ++ [k]) := by
  induction pre with
  | nil =>
    cases suf with
    | nil => simp [tryKeys, hk]
    | cons b bs => simp [tryKeys, hk]
  | cons p ps ih =>
    have hp : attempt p = Except.error () := hpre p (List.mem_cons_self p ps)
    have hih := ih (fun x hx => hpre x (List.mem_cons_of_mem p hx))
    cases hps : ps ++ k :: suf with
    | nil => simp at hps
    | cons q qs =>
      have hstep : tryKeys attempt ((p :: ps) ++ k :: suf)
          = ((tryKeys attempt (q :: qs)).1, p :: (tryKeys attempt (q :: qs)).2) := by
        rw [List.cons_append, hps]
        simp [tryKeys, hp]
      rw [hstep, ← hps, hih]
      simp

/-- When the request errors for every key, the loop tries them all and ends with
the single service-unavailable 500. -/
theorem tryKeys_all_fail (attempt : String → Except Unit String) :
    ∀ ks : List String, ks ≠ [] → (∀ x ∈ ks, attempt x = Except.error ()) →
    tryKeys attempt ks =
      (Except.error
        ⟨500, "The AI service is currently unavailable after trying all available keys."⟩,
        ks) := by
  intro ks
  induction ks with
  | nil => intro h; exact absurd rfl h
  | cons k rest ih =>
    intro _ hall
    cases rest with
    | nil => simp [tryKeys, hall k (List.mem_cons_self k [])]
    | cons k2 rest2 =>
      have h1 : attempt k = Except.error () := hall k (List.mem_cons_self k (k2 :: rest2))
      have hih := ih (by simp) (fun x hx => hall x (List.mem_cons_of_mem k hx))
      simp [tryKeys, h1, hih]

/-- Claim C7 fails as stated: with the configured key list `["", "b"]` (the
split of the environment value ",b") and a request that would succeed on
key "b", the call throws the configuration 500 immediately without trying
"b", although the list is nonempty and contains a key whose request
succeeds. -/
theorem callGemini_skips_later_key :
    c7attempt "b" = Except.ok "hi" ∧
    "b" ∈ ["", "b"] ∧
    callGeminiWithFallback (some ["", "b"]) c7attempt =
      (Except.error ⟨500, "No Google API keys are configured on the server."⟩, []) :=
  ⟨rfl, by decide, by simp [callGeminiWithFallback]⟩

/-- Claim C7 (amended): `callGeminiWithFallback` tries the configured keys
in list order; when the key list is present, nonempty and its first key is
nonempty, it returns the response of the first key whose request succeeds
without trying any later key, and it throws a single 500 after trying every
key exactly when all requests error; it throws the configuration 500
immediately, trying no key, when the key list is missing, empty, or has an
empty first key. -/
theorem callGemini_fallback_spec :
    (∀ (attempt : String → Except Unit String) (pre : List String) (k : String)
        (suf : List String) (t : String),
      (pre ++ k :: suf).head? ≠ some "" →
      (∀ x ∈ pre, attempt x = Except.error ()) →
      attempt k = Except.ok t →
      callGeminiWithFallback (some (pre ++ k :: suf)) attempt = (Except.ok t, pre ++ [k]))
    ∧ (∀ (attempt : String → Except Unit String) (k0 : String) (ks : List String),
      k0 ≠ "" →
      (∀ x ∈ k0 :: ks, attempt x = Except.error ()) →
      callGeminiWithFallback (some (k0 :: ks)) attempt =
        (Except.error
          ⟨500, "The AI service is currently unavailable after trying all available keys."⟩,
          k0 :: ks))
    ∧ (∀ attempt, callGeminiWithFallback none attempt =
        (Except.error ⟨500, "No Google API keys are configured on the server."⟩, []))
    ∧ (∀ attempt, callGeminiWithFallback (some []) attempt =
        (Except.error ⟨500, "No Google API keys are configured on the server."⟩, []))
    ∧ (∀ attempt ks, callGeminiWithFallback (some ("" :: ks)) attempt =
        (Except.error ⟨500, "No Google API keys are configured on the server."⟩, [])) := by
  refine ⟨?_, ?_, fun attempt => rfl, fun attempt => rfl,
    fun attempt ks => by simp [callGeminiWithFallback]⟩
  · intro attempt pre k suf t hhead hpre hk
    cases pre with
    | nil =>
      have hk0 : k ≠ "" := by simpa using hhead
      simpa [callGeminiWithFallback, if_neg hk0] using
        tryKeys_first_success attempt [] k suf t (by simp) hk
    | cons p ps =>
      have hp0 : p ≠ "" := by simpa using hhead
      simpa [callGeminiWithFallback, if_neg hp0] using
        tryKeys_first_success attempt (p :: ps) k suf t hpre hk
  · intro attempt k0 ks hk0 hall
    simp only [callGeminiWithFallback, if_neg hk0]
    exact tryKeys_all_fail attempt (k0 :: ks) (by simp) hall

/-- Witness for the amended C7: first key errors, second succeeds. -/
theorem callGemini_fallback_spec_witness :
    callGeminiWithFallback (some ["a", "b"]) c7attempt2 = (Except.ok "resp", ["a", "b"]) :=
  callGemini_fallback_spec.1 c7attempt2 ["a"] "b" [] "resp" (by decide)
    (fun x hx => by rw [List.mem_singleton] at hx; subst hx; rfl) rfl

/-- Conversation lists transformed by a participant-preserving per-element
update keep, per element, the participants of an element of the original
list. -/
theorem mem_map_participants (l : List Conversation) (f : Conversation → Conversation)
    (hf : ∀ c0, (f c0).participants = c0.participants) :
    ∀ c ∈ l.map f, ∃ c0 ∈ l, c.participants = c0.participants := by
  intro c hc
  rcases List.mem_map.mp hc with ⟨c0, hc0, hfc⟩
  exact ⟨c0, hc0, by rw [← hfc, hf]⟩

/-- Any conversation present after a `sendMessage` call either keeps the
participants of a pre-existing conversation or is the lazily created one,
which requires an accepted chat request at call time. -/
theorem sendMessage_conversations (dict : List String) (db : DB)
    (s r : Nat) (m : List String) (o : SideOracle) :
    ∀ c ∈ (sendMessage dict db s r m o).2.conversations,
      (∃ c0 ∈ db.conversations, c.participants = c0.participants) ∨
      (acceptedRequestExists db s r = true ∧ c.participants = [s, r]) := by
  intro c hc
  unfold sendMessage at hc
  by_cases hp : profanityCheck dict m
  · rw [if_pos hp] at hc
    exact Or.inl ⟨c, hc, rfl⟩
  · rw [if_neg hp] at hc
    cases hfc : findConversation db s r with
    | some conv =>
      have hconvmem : conv ∈ db.conversations :=
        List.mem_of_find?_eq_some (by simpa [findConversation] using hfc)
      simp only [hfc] at hc
      rcases List.mem_map.mp hc with ⟨c0, hc0, hfc2⟩
      by_cases hid : c0.id = conv.id
      · rw [if_pos hid] at hfc2
        subst hfc2
        exact Or.inl ⟨conv, hconvmem, rfl⟩
      · rw [if_neg hid] at hfc2
        subst hfc2
        exact Or.inl ⟨c0, hc0, rfl⟩
    | none =>
      by_cases hacc : acceptedRequestExists db s r
      · simp only [hfc, if_pos hacc] at hc
        rcases List.mem_map.mp hc with ⟨c0, hc0, hfc2⟩
        rcases List.mem_append.mp hc0 with h0 | h0
        · by_cases hid : c0.id = db.nextId
          · rw [if_pos hid] at hfc2
            subst hfc2
            exact Or.inr ⟨hacc, rfl⟩
          · rw [if_neg hid] at hfc2
            subst hfc2
            exact Or.inl ⟨c0, h0, rfl⟩
        · have hc0eq : c0 =
              ({ id := db.nextId, participants := [s, r], messages := [] } : Conversation) := by
            simpa using h0
          subst hc0eq
          rw [if_pos rfl] at hfc2
          subst hfc2
          exact Or.inr ⟨hacc, rfl⟩
      · simp only [hfc, if_neg hacc] at hc
        exact Or.inl ⟨c, hc, rfl⟩

/-- `deleteMessage` preserves the participants of each surviving conversation. -/
theorem deleteMessage_conversations (db : DB) (u mid : Nat) :
    ∀ c ∈ (deleteMessage db u mid).2.conversations,
      ∃ c0 ∈ db.conversations, c.participants = c0.participants := by
  intro c hc
  cases hm : db.messages.find? (fun msg => msg.id == mid) with
  | none =>
    simp only [deleteMessage, hm] at hc
    exact ⟨c, hc, rfl⟩
  | some message =>
    by_cases hs : message.senderId ≠ u
    · simp only [deleteMessage, hm, if_pos hs] at hc
      exact ⟨c, hc, rfl⟩
    · cases hcv : db.conversations.find? (fun c2 => c2.messages.contains mid) with
      | none =>
        simp only [deleteMessage, hm, if_neg hs, hcv] at hc
        exact ⟨c, hc, rfl⟩
      | some conversation =>
        simp only [deleteMessage, hm, if_neg hs, hcv] at hc
        rcases List.mem_map.mp hc with ⟨c0, hc0, hfc⟩
        by_cases hid : c0.id = conversation.id
        · rw [if_pos hid] at hfc
          subst hfc
          exact ⟨c0, hc0, rfl⟩
        · rw [if_neg hid] at hfc
          subst hfc
          exact ⟨c0, hc0, rfl⟩

/-- `clearConversation` preserves the participants of each surviving
conversation. -/
theorem clearConversation_conversations (db : DB) (u cid : Nat) :
    ∀ c ∈ (clearConversation db u cid).2.conversations,
      ∃ c0 ∈ db.conversations, c.participants = c0.participants := by
  intro c hc
  cases hcv : db.conversations.find? (fun c2 => c2.id == cid) with
  | none =>
    simp only [clearConversation, hcv] at hc
    exact ⟨c, hc, rfl⟩
  | some conversation =>
    have hcmem : conversation ∈ db.conversations := List.mem_of_find?_eq_some hcv
    by_cases hpart : conversation.participants.contains u
    · simp only [clearConversation, hcv, if_pos hpart] at hc
      rcases List.mem_map.mp hc with ⟨c0, hc0, hfc⟩
      by_cases hid : c0.id = conversation.id
      · rw [if_pos hid] at hfc
        subst hfc
        exact ⟨conversation, hcmem, rfl⟩
      · rw [if_neg hid] at hfc
        subst hfc
        exact ⟨c0, hc0, rfl⟩
    · simp only [clearConversation, hcv, if_neg hpart] at hc
      exact ⟨c, hc, rfl⟩

/-- `deleteConversation` only removes conversations. -/
theorem deleteConversation_conversations (db : DB) (u cid : Nat) :
    ∀ c ∈ (deleteConversation db u cid).2.conversations,
      ∃ c0 ∈ db.conversations, c.participants = c0.participants := by
  intro c hc
  cases hcv : db.conversations.find? (fun c2 => c2.id == cid) with
  | none =>
    simp only [deleteConversation, hcv] at hc
    exact ⟨c, hc, rfl⟩
  | some conversation =>
    by_cases hpart : conversation.participants.contains u
    · simp only [deleteConversation, hcv, if_pos hpart] at hc
      exact ⟨c, List.mem_of_mem_filter hc, rfl⟩
    · simp only [deleteConversation, hcv, if_neg hpart] at hc
      exact ⟨c, hc, rfl⟩

/-- The report endpoints never touch the conversation collection. -/
theorem reportUser_conversations (db : DB) (a cid : Nat) (reason : String)
    (o : SideOracle) :
    (reportUser db a cid reason o).2.conversations = db.conversations := by
  unfold reportUser
  split
  · rfl
  · split
    · rfl
    · split
      · rfl
      · split
        · rfl
        · simp [tryNotify_eq]

/-- The skill-report endpoint never touches the conversation collection. -/
theorem reportSkill_conversations (db : DB) (a sid : Nat) (reason : String)
    (o : SideOracle) :
    (reportSkill db a sid reason o).2.conversations = db.conversations := by
  unfold reportSkill
  split
  · rfl
  · split
    · rfl
    · split
      · rfl
      · split
        · rfl
        · simp [tryNotify_eq]

/-- The read-marking endpoints never touch the conversation collection. -/
theorem markMessagesAsRead_conversations (db : DB) (u v : Nat) :
    (markMessagesAsRead db u v).2.conversations = db.conversations := by
  unfold markMessagesAsRead
  split
  · rfl
  · rfl

/-- One step of any modelled operation either keeps the participants of a
conversation from the previous state or is a `sendMessage` that lazily
created the conversation behind an accepted chat request. -/
theorem execOp_conversations (dict : List String) (db : DB) (op : Op) :
    ∀ c ∈ (execOp dict db op).conversations,
      (∃ c0 ∈ db.conversations, c.participants = c0.participants) ∨
      (∃ s r m o, op = Op.sendMessageOp s r m o ∧
        acceptedRequestExists db s r = true ∧ c.participants = [s, r]) := by
  intro c hc
  cases op with
  | sendMessageOp s r m o =>
    rcases sendMessage_conversations dict db s r m o c hc with h | ⟨hacc, hpart⟩
    · exact Or.inl h
    · exact Or.inr ⟨s, r, m, o, rfl, hacc, hpart⟩
  | deleteMessageOp u mid => exact Or.inl (deleteMessage_conversations db u mid c hc)
  | clearConversationOp u cid => exact Or.inl (clearConversation_conversations db u cid c hc)
  | deleteConversationOp u cid => exact Or.inl (deleteConversation_conversations db u cid c hc)
  | reportUserOp u cid reason o =>
    have hc2 : c ∈ (reportUser db u cid reason o).2.conversations := hc
    rw [reportUser_conversations] at hc2
    exact Or.inl ⟨c, hc2, rfl⟩
  | reportSkillOp u sid reason o =>
    have hc2 : c ∈ (reportSkill db u sid reason o).2.conversations := hc
    rw [reportSkill_conversations] at hc2
    exact Or.inl ⟨c, hc2, rfl⟩
  | markAllAsReadOp u => exact Or.inl ⟨c, hc, rfl⟩
  | markMessagesAsReadOp u v =>
    have hc2 : c ∈ (markMessagesAsRead db u v).2.conversations := hc
    rw [markMessagesAsRead_conversations] at hc2
    exact Or.inl ⟨c, hc2, rfl⟩
  | createChatRequestOp a b => exact Or.inl ⟨c, hc, rfl⟩
  | acceptChatRequestOp i => exact Or.inl ⟨c, hc, rfl⟩
  | rejectChatRequestOp i => exact Or.inl ⟨c, hc, rfl⟩
  | deleteChatRequestOp a b => exact Or.inl ⟨c, hc, rfl⟩

/-- Along any run, a conversation in the final state either keeps the
participants of a conversation of the start state or was created by a
`sendMessage` step at whose pre-state an accepted chat request between its
two participants existed. -/
theorem runOps_conversations (dict : List String) :
    ∀ (ops : List Op) (db : DB) (c : Conversation),
      c ∈ (runOps dict db ops).conversations →
      (∃ c0 ∈ db.conversations, c.participants = c0.participants) ∨
      ∃ pre s r m o rest, ops = pre ++ Op.sendMessageOp s r m o :: rest ∧
        acceptedRequestExists (runOps dict db pre) s r = true ∧
        c.participants = [s, r] := by
  intro ops
  induction ops with
  | nil => intro db c hc; exact Or.inl ⟨c, hc, rfl⟩
  | cons op ops ih =>
    intro db c hc
    have hc2 : c ∈ (runOps dict (execOp dict db op) ops).conversations := hc
    rcases ih (execOp dict db op) c hc2 with ⟨c0, hc0, hparts⟩ | ⟨pre, s, r, m, o, rest, hops, hacc, hparts⟩
    · rcases execOp_conversations dict db op c0 hc0 with ⟨c1, hc1, hp1⟩ | ⟨s, r, m, o, hop, hacc, hp1⟩
      · exact Or.inl ⟨c1, hc1, hparts.trans hp1⟩
      · exact Or.inr ⟨[], s, r, m, o, ops, by simp [hop], hacc, hparts.trans hp1⟩
    · exact Or.inr ⟨op :: pre, s, r, m, o, rest, by simp [hops], hacc, hparts⟩

/-- Claim C2: in any state reachable by the modelled operations from the
empty store, every conversation was created by a `sendMessage` step that
found an accepted chat request between its two participants at creation
time; and deleting a chat request never removes a conversation. -/
theorem conversation_creation_gated (dict : List String) :
    (∀ (ops : List Op) (c : Conversation),
      c ∈ (runOps dict initDB ops).conversations →
      ∃ pre s r m o rest, ops = pre ++ Op.sendMessageOp s r m o :: rest ∧
        acceptedRequestExists (runOps dict initDB pre) s r = true ∧
        c.participants = [s, r])
    ∧ (∀ (db : DB) (a b : Nat),
      (execOp dict db (Op.deleteChatRequestOp a b)).conversations = db.conversations) := by
  constructor
  · intro ops c hc
    rcases runOps_conversations dict ops initDB c hc with ⟨c0, hc0, _⟩ | h
    · exact absurd hc0 (by simp [initDB])
    · exact h
  · intro db a b
    rfl

/-- Witness for C2: a run that requests, accepts and then messages. -/
theorem conversation_creation_gated_witness :
    ∃ pre s r m o rest,
      [Op.createChatRequestOp 1 2, Op.acceptChatRequestOp 0,
        Op.sendMessageOp 1 2 ["hi"] noFail] = pre ++ Op.sendMessageOp s r m o :: rest ∧
      acceptedRequestExists (runOps [] initDB pre) s r = true ∧
      ({ id := 1, participants := [1, 2], messages := [2],
         lastMessage := some 2 } : Conversation).participants = [s, r] :=
  (conversation_creation_gated []).1
    [Op.createChatRequestOp 1 2, Op.acceptChatRequestOp 0,
      Op.sendMessageOp 1 2 ["hi"] noFail]
    { id := 1, participants := [1, 2], messages := [2], lastMessage := some 2 }
    (by decide)

/-- Witness for C3 on a concrete database with one REQUEST and two OFFER
skills. -/
theorem getMatchingSkills_spec_witness :
    ∃ l, getMatchingSkills c3db 7 0 = Except.ok l ∧
      l.length ≤ 5 ∧
      (∀ p ∈ l, p.1.type = SkillType.OFFER ∧ p.1.user ≠ 7 ∧
        p.2 = (if p.1.category = c3req.category then 10 else 0) +
          5 * (p.1.tags.filter (fun t => c3req.tags.contains t)).length) ∧
      List.Pairwise scoreGe l :=
  getMatchingSkills_spec c3db 7 0 c3req (by decide) (by decide)

/-- Every password-policy rejection carries status 400. -/
theorem passwordPolicyError_code (pw : String) (e : ApiError)
    (h : passwordPolicyError pw = some e) : e.statusCode = 400 := by
  unfold passwordPolicyError at h
  split_ifs at h <;> (try injection h with h2) <;> (try subst h2) <;> simp_all

/-- Claim C5: for each OTP flow — registration verification (`verifyOtp`),
password reset (`resetPassword`) and email change (`verifyEmailChange`) — a
call whose submitted code does not match the stored code or whose stored
expiry is not strictly later than the current time fails with a 400 error
and changes no user state, and a successful call clears the stored code and
expiry, so that replaying the same code fails with a 400 error and changes
nothing.  The uniqueness hypotheses state that the lookup key (email
respectively user id) identifies at most one user document. -/
theorem otp_flows_spec :
    (∀ (db : UserDB) (email otp : String) (now : Nat) (u : User),
      u ∈ db.users → (∀ v ∈ db.users, v.email = some email → v = u) →
      u.email = some email →
      ¬(u.verificationOtp = some otp ∧
        ∃ e, u.verificationOtpExpiry = some e ∧ now < e) →
      errCode (verifyOtp db email otp now) = some 400 ∧
        (verifyOtp db email otp now).2 = db)
    ∧ (∀ (db : UserDB) (email otp : String) (now : Nat) (db2 : UserDB),
      (∀ v ∈ db.users, ∀ w ∈ db.users,
        v.email = some email → w.email = some email → v = w) →
      verifyOtp db email otp now = (Except.ok (), db2) →
      (∃ u2 ∈ db2.users, u2.email = some email ∧ u2.verificationOtp = none ∧
        u2.verificationOtpExpiry = none) ∧
      ∀ now2, errCode (verifyOtp db2 email otp now2) = some 400 ∧
        (verifyOtp db2 email otp now2).2 = db2)
    ∧ (∀ (db : UserDB) (email otp pw : String) (now : Nat) (u : User),
      u ∈ db.users → (∀ v ∈ db.users, v.email = some email → v = u) →
      u.email = some email →
      ¬(u.passwordResetOtp = some otp ∧
        ∃ e, u.passwordResetOtpExpiry = some e ∧ now < e) →
      errCode (resetPassword db email otp pw now) = some 400 ∧
        (resetPassword db email otp pw now).2 = db)
    ∧ (∀ (db : UserDB) (email otp pw : String) (now : Nat) (db2 : UserDB),
      (∀ v ∈ db.users, ∀ w ∈ db.users,
        v.email = some email → w.email = some email → v = w) →
      resetPassword db email otp pw now = (Except.ok (), db2) →
      (∃ u2 ∈ db2.users, u2.email = some email ∧ u2.passwordResetOtp = none ∧
        u2.passwordResetOtpExpiry = none) ∧
      ∀ pw2 now2, errCode (resetPassword db2 email otp pw2 now2) = some 400 ∧
        (resetPassword db2 email otp pw2 now2).2 = db2)
    ∧ (∀ (db : UserDB) (userId : Nat) (otp : String) (now : Nat) (u : User),
      u ∈ db.users → (∀ v ∈ db.users, v.id = userId → v = u) →
      u.id = userId →
      ¬(u.emailChangeOtp = some otp ∧
        ∃ e, u.emailChangeOtpExpiry = some e ∧ now < e) →
      errCode (verifyEmailChange db userId otp now) = some 400 ∧
        (verifyEmailChange db userId otp now).2 = db)
    ∧ (∀ (db : UserDB) (userId : Nat) (otp : String) (now : Nat) (db2 : UserDB),
      (∀ v ∈ db.users, ∀ w ∈ db.users, v.id = userId → w.id = userId → v = w) →
      verifyEmailChange db userId otp now = (Except.ok (), db2) →
      (∃ u2 ∈ db2.users, u2.id = userId ∧ u2.emailChangeOtp = none ∧
        u2.emailChangeOtpExpiry = none) ∧
      ∀ now2, errCode (verifyEmailChange db2 userId otp now2) = some 400 ∧
        (verifyEmailChange db2 userId otp now2).2 = db2) := by
  refine ⟨?_, ?_, ?_, ?_, ?_, ?_⟩
  · -- verifyOtp rejects a mismatched or expired code
    intro db email otp now u humem huniq huem hbad
    by_cases hempty : email = "" ∨ otp = ""
    · simp only [verifyOtp, if_pos hempty]
      simp [errCode]
    · have hnone : db.users.find? (fun v => v.email == some email
          && v.verificationOtp == some otp
          && (match v.verificationOtpExpiry with
              | some e => decide (now < e)
              | none => false)) = none := by
        rw [List.find?_eq_none]
        intro v hv hpred
        simp only [Bool.and_eq_true, beq_iff_eq] at hpred
        obtain ⟨⟨hvemail, hvotp⟩, hvexp⟩ := hpred
        have hvu : v = u := huniq v hv hvemail
        subst hvu
        refine hbad ⟨hvotp, ?_⟩
        cases hE : v.verificationOtpExpiry with
        | none => simp [hE] at hvexp
        | some e =>
          simp [hE] at hvexp
          exact ⟨e, rfl, hvexp⟩
      simp only [verifyOtp, if_neg hempty, hnone]
      simp [errCode]
  · -- a successful verifyOtp clears the code; replay fails
    intro db email otp now db2 huniq heq
    by_cases hempty : email = "" ∨ otp = ""
    · unfold verifyOtp at heq
      rw [if_pos hempty] at heq
      simp at heq
    · unfold verifyOtp at heq
      rw [if_neg hempty] at heq
      cases hfind : db.users.find? (fun v => v.email == some email
          && v.verificationOtp == some otp
          && (match v.verificationOtpExpiry with
              | some e => decide (now < e)
              | none => false)) with
      | none =>
        rw [hfind] at heq
        simp at heq
      | some user =>
        rw [hfind] at heq
        simp only at heq
        injection heq with h1 hdb2
        subst hdb2
        have hmemu : user ∈ db.users := List.mem_of_find?_eq_some hfind
        have hpredu := List.find?_some hfind
        simp only [Bool.and_eq_true, beq_iff_eq] at hpredu
        obtain ⟨⟨huem, huotp⟩, huexp⟩ := hpredu
        let user2 : User := { user with isVerified := true, verificationOtp := none, verificationOtpExpiry := none }
        constructor
        · exact ⟨user2, List.mem_map.mpr ⟨user, hmemu, by simp⟩, huem, rfl, rfl⟩
        · intro now2
          have hnone2 : (db.users.map (fun v => if v.id = user.id then user2 else v)).find?
              (fun v => v.email == some email
                && v.verificationOtp == some otp
                && (match v.verificationOtpExpiry with
                    | some e => decide (now2 < e)
                    | none => false)) = none := by
            rw [List.find?_eq_none]
            intro v2 hv2 hpred2
            rcases List.mem_map.mp hv2 with ⟨v, hv, hfv⟩
            simp only [Bool.and_eq_true, beq_iff_eq] at hpred2
            obtain ⟨⟨hv2e, hv2o⟩, _⟩ := hpred2
            by_cases hid : v.id = user.id
            · rw [if_pos hid] at hfv
              rw [← hfv] at hv2o
              simp at hv2o
            · rw [if_neg hid] at hfv
              rw [← hfv] at hv2e
              exact hid (by rw [huniq v hv user hmemu hv2e huem])
          simp only [verifyOtp, if_neg hempty, hnone2]
          simp [errCode]
  · -- resetPassword rejects a mismatched or expired code
    intro db email otp pw now u humem huniq huem hbad
    by_cases hempty : email = "" ∨ otp = "" ∨ pw = ""
    · simp only [resetPassword, if_pos hempty]
      simp [errCode]
    · cases hpol : passwordPolicyError pw with
      | some e =>
        simp only [resetPassword, if_neg hempty, hpol]
        exact ⟨by simp [errCode, passwordPolicyError_code pw e hpol], by trivial⟩
      | none =>
        have hnone : db.users.find? (fun v => v.email == some email
            && v.passwordResetOtp == some otp
            && (match v.passwordResetOtpExpiry with
                | some e => decide (now < e)
                | none => false)) = none := by
          rw [List.find?_eq_none]
          intro v hv hpred
          simp only [Bool.and_eq_true, beq_iff_eq] at hpred
          obtain ⟨⟨hvemail, hvotp⟩, hvexp⟩ := hpred
          have hvu : v = u := huniq v hv hvemail
          subst hvu
          refine hbad ⟨hvotp, ?_⟩
          cases hE : v.passwordResetOtpExpiry with
          | none => simp [hE] at hvexp
          | some e =>
            simp [hE] at hvexp
            exact ⟨e, rfl, hvexp⟩
        simp only [resetPassword, if_neg hempty, hpol, hnone]
        simp [errCode]
  · -- a successful resetPassword clears the code; replay fails
    intro db email otp pw now db2 huniq heq
    by_cases hempty : email = "" ∨ otp = "" ∨ pw = ""
    · unfold resetPassword at heq
      rw [if_pos hempty] at heq
      simp at heq
    · unfold resetPassword at heq
      rw [if_neg hempty] at heq
      cases hpol : passwordPolicyError pw with
      | some e =>
        rw [hpol] at heq
        simp at heq
      | none =>
        rw [hpol] at heq
        cases hfind : db.users.find? (fun v => v.email == some email
            && v.passwordResetOtp == some otp
            && (match v.passwordResetOtpExpiry with
                | some e => decide (now < e)
                | none => false)) with
        | none =>
          rw [hfind] at heq
          simp at heq
        | some user =>
          rw [hfind] at heq
          by_cases hsame : user.password = pw
          · simp only [if_pos hsame] at heq
            simp at heq
          · simp only [if_neg hsame] at heq
            injection heq with h1 hdb2
            subst hdb2
            have hmemu : user ∈ db.users := List.mem_of_find?_eq_some hfind
            have hpredu := List.find?_some hfind
            simp only [Bool.and_eq_true, beq_iff_eq] at hpredu
            obtain ⟨⟨huem, huotp⟩, huexp⟩ := hpredu
            let user2 : User := { user with password := pw, passwordResetOtp := none, passwordResetOtpExpiry := none }
            constructor
            · exact ⟨user2, List.mem_map.mpr ⟨user, hmemu, by simp⟩, huem, rfl, rfl⟩
            · intro pw2 now2
              by_cases hempty2 : email = "" ∨ otp = "" ∨ pw2 = ""
              · simp only [resetPassword, if_pos hempty2]
                simp [errCode]
              · cases hpol2 : passwordPolicyError pw2 with
                | some e =>
                  simp only [resetPassword, if_neg hempty2, hpol2]
                  exact ⟨by simp [errCode, passwordPolicyError_code pw2 e hpol2], by trivial⟩
                | none =>
                  have hnone2 : (db.users.map (fun v => if v.id = user.id then user2 else v)).find?
                      (fun v => v.email == some email
                        && v.passwordResetOtp == some otp
                        && (match v.passwordResetOtpExpiry with
                            | some e => decide (now2 < e)
                            | none => false)) = none := by
                    rw [List.find?_eq_none]
                    intro v2 hv2 hpred2
                    rcases List.mem_map.mp hv2 with ⟨v, hv, hfv⟩
                    simp only [Bool.and_eq_true, beq_iff_eq] at hpred2
                    obtain ⟨⟨hv2e, hv2o⟩, _⟩ := hpred2
                    by_cases hid : v.id = user.id
                    · rw [if_pos hid] at hfv
                      rw [← hfv] at hv2o
                      simp at hv2o
                    · rw [if_neg hid] at hfv
                      rw [← hfv] at hv2e
                      exact hid (by rw [huniq v hv user hmemu hv2e huem])
                  simp only [resetPassword, if_neg hempty2, hpol2, hnone2]
                  simp [errCode]
  · -- verifyEmailChange rejects a mismatched or expired code
    intro db userId otp now u humem huniq huid hbad
    by_cases hempty : otp = ""
    · simp only [verifyEmailChange, if_pos hempty]
      simp [errCode]
    · have hnone : db.users.find? (fun v => v.id == userId
          && v.emailChangeOtp == some otp
          && (match v.emailChangeOtpExpiry with
              | some e => decide (now < e)
              | none => false)) = none := by
        rw [List.find?_eq_none]
        intro v hv hpred
        simp only [Bool.and_eq_true, beq_iff_eq] at hpred
        obtain ⟨⟨hvid, hvotp⟩, hvexp⟩ := hpred
        have hvu : v = u := huniq v hv hvid
        subst hvu
        refine hbad ⟨hvotp, ?_⟩
        cases hE : v.emailChangeOtpExpiry with
        | none => simp [hE] at hvexp
        | some e =>
          simp [hE] at hvexp
          exact ⟨e, rfl, hvexp⟩
      simp only [verifyEmailChange, if_neg hempty, hnone]
      simp [errCode]
  · -- a successful verifyEmailChange clears the code; replay fails
    intro db userId otp now db2 huniq heq
    by_cases hempty : otp = ""
    · unfold verifyEmailChange at heq
      rw [if_pos hempty] at heq
      simp at heq
    · unfold verifyEmailChange at heq
      rw [if_neg hempty] at heq
      cases hfind : db.users.find? (fun v => v.id == userId
          && v.emailChangeOtp == some otp
          && (match v.emailChangeOtpExpiry with
              | some e => decide (now < e)
              | none => false)) with
      | none =>
        rw [hfind] at heq
        simp at heq
      | some user =>
        rw [hfind] at heq
        simp only at heq
        injection heq with h1 hdb2
        subst hdb2
        have hmemu : user ∈ db.users := List.mem_of_find?_eq_some hfind
        have hpredu := List.find?_some hfind
        simp only [Bool.and_eq_true, beq_iff_eq] at hpredu
        obtain ⟨⟨huid, huotp⟩, huexp⟩ := hpredu
        let user2 : User := { user with email := user.newEmail, isVerified := true, newEmail := none, emailChangeOtp := none, emailChangeOtpExpiry := none }
        constructor
        · exact ⟨user2, List.mem_map.mpr ⟨user, hmemu, by simp⟩, huid, rfl, rfl⟩
        · intro now2
          have hnone2 : (db.users.map (fun v => if v.id = user.id then user2 else v)).find?
              (fun v => v.id == userId
                && v.emailChangeOtp == some otp
                && (match v.emailChangeOtpExpiry with
                    | some e => decide (now2 < e)
                    | none => false)) = none := by
            rw [List.find?_eq_none]
            intro v2 hv2 hpred2
            rcases List.mem_map.mp hv2 with ⟨v, hv, hfv⟩
            simp only [Bool.and_eq_true, beq_iff_eq] at hpred2
            obtain ⟨⟨hv2id, hv2o⟩, _⟩ := hpred2
            by_cases hid : v.id = user.id
            · rw [if_pos hid] at hfv
              rw [← hfv] at hv2o
              simp at hv2o
            · rw [if_neg hid] at hfv
              rw [← hfv] at hv2id
              exact hid (by rw [huniq v hv user hmemu hv2id huid])
          simp only [verifyEmailChange, if_neg hempty, hnone2]
          simp [errCode]

/-- Witness for C5: mismatched codes are rejected in all three flows on a
concrete user store. -/
theorem otp_flows_spec_witness :
    (errCode (verifyOtp c5db "a@b.c" "999999" 50) = some 400 ∧
      (verifyOtp c5db "a@b.c" "999999" 50).2 = c5db) ∧
    (errCode (resetPassword c5db "a@b.c" "999999" "Newpass1!" 50) = some 400 ∧
      (resetPassword c5db "a@b.c" "999999" "Newpass1!" 50).2 = c5db) ∧
    (errCode (verifyEmailChange c5db 0 "999999" 50) = some 400 ∧
      (verifyEmailChange c5db 0 "999999" 50).2 = c5db) :=
  ⟨otp_flows_spec.1 c5db "a@b.c" "999999" 50 c5user (by decide) (by decide)
      (by decide) (by decide),
    otp_flows_spec.2.2.1 c5db "a@b.c" "999999" "Newpass1!" 50 c5user (by decide)
      (by decide) (by decide) (by decide),
    otp_flows_spec.2.2.2.2.1 c5db 0 "999999" 50 c5user (by decide) (by decide)
      (by decide) (by decide)⟩

/-- Claim C10: when a `registerUser` call passes validation and would
succeed, but the verification email throws, the just-created user document
is deleted again: the call fails with the 500 error and the user collection
is exactly what it was before the call.  The freshness hypothesis says the
id assigned to the new document is unused, as the database guarantees. -/
theorem register_rollback (db : UserDB) (fn ln un em pw otp : String) (now : Nat)
    (hfresh : ∀ u ∈ db.users, u.id ≠ db.nextId)
    (hok : ∃ db2, registerUser db fn ln un em pw otp now false = (Except.ok (), db2)) :
    (registerUser db fn ln un em pw otp now true).1 =
      Except.error ⟨500, "Could not send verification email. Please try again later."⟩ ∧
    (registerUser db fn ln un em pw otp now true).2.users = db.users := by
  obtain ⟨db2, heq⟩ := hok
  by_cases h1 : [fn, ln, un, em, pw].any (fun f => isBlank f)
  · unfold registerUser at heq
    rw [if_pos h1] at heq
    simp at heq
  · cases h2 : passwordPolicyError pw with
    | some e =>
      unfold registerUser at heq
      rw [if_neg h1, h2] at heq
      simp at heq
    | none =>
      by_cases h3 : db.users.any (fun u => u.username == un || u.email == some em)
      · unfold registerUser at heq
        rw [if_neg h1, h2, if_pos h3] at heq
        simp at heq
      · have h1a : ¬(isBlank fn = true ∨ isBlank ln = true ∨ isBlank un = true ∨
            isBlank em = true ∨ isBlank pw = true) := by simpa using h1
        have h3a : ¬(∃ x ∈ db.users, x.username = un ∨ x.email = some em) := by
          simpa using h3
        have h4 : List.filter (fun u2 => !decide (u2.id = db.nextId)) db.users = db.users := by
          rw [List.filter_eq_self]
          intro v hv
          simpa using hfresh v hv
        constructor
        · simp [registerUser, h2, if_neg h1a, if_neg h3a]
        · simp [registerUser, h2, if_neg h1a, if_neg h3a, h4]

/-- Witness for C10: a valid registration on an empty store whose email
send throws leaves no user behind. -/
theorem register_rollback_witness :
    (registerUser c10db "A" "B" "Carl" "a@b.c" "Passw0rd!" "111111" 5 true).1 =
      Except.error ⟨500, "Could not send verification email. Please try again later."⟩ ∧
    (registerUser c10db "A" "B" "Carl" "a@b.c" "Passw0rd!" "111111" 5 true).2.users =
      c10db.users :=
  register_rollback c10db "A" "B" "Carl" "a@b.c" "Passw0rd!" "111111" 5
    (by intro u hu; simp [c10db] at hu) ⟨_, rfl⟩

end S4S
